import Mathlib

/-!
Shallow embedding of the `ytube` repository (two Streamlit apps:
`app.py` and `app5.py`) and verification of its specification claims.

External collaborators (the transcript source, the Gemini model, the
spaCy pipeline, TextBlob, the YouTube Data API) are modelled as function
parameters; the repository's own glue logic is translated faithfully
from the Python source.
-/

namespace Ytube

/-- One caption-segment record returned by the transcript source.
The source code only reads the `text` field (`entry["text"]`); timing
information is not retained (spec section 3). -/
structure Segment where
  text : String
deriving DecidableEq, Repr

/-- Result of one call to `YouTubeTranscriptApi.get_transcript`:
either a list of segment records or one of the typed upstream failures
(`NoTranscriptFound`, `TranscriptsDisabled`, `VideoUnavailable`, other). -/
inductive FetchResult where
  | ok : List Segment → FetchResult
  | noTranscriptFound : FetchResult
  | transcriptsDisabled : FetchResult
  | videoUnavailable : FetchResult
  | otherError : String → FetchResult
deriving DecidableEq, Repr

/-- Whether a fetch succeeded. -/
def FetchResult.isOk : FetchResult → Bool
  | .ok _ => true
  | _ => false

/-- Embedding of Python `" ".join(texts)`: elements joined in order with
a single space between consecutive elements; empty list gives `""`. -/
def pyJoinSpace : List String → String
  | [] => ""
  | t :: ts =>
    match ts with
    | [] => t
    | _ :: _ => t ++ " " ++ pyJoinSpace ts

/-- Embedding of Python `"=".join(texts)` (used only to state the
spec's "substring after the first =" formulation). -/
def pyJoinEq : List String → String
  | [] => ""
  | t :: ts =>
    match ts with
    | [] => t
    | _ :: _ => t ++ "=" ++ pyJoinEq ts

/-- Embedding of Python `s.split("=")` on the character list of `s`:
`"a=b=c"` splits to `["a","b","c"]`, `""` splits to `[""]`. -/
def splitOnEqCh : List Char → List (List Char)
  | [] => [[]]
  | c :: cs =>
    let r := splitOnEqCh cs
    if c = '=' then [] :: r
    else
      match r with
      | [] => [[c]]
      | g :: gs => (c :: g) :: gs

/-- Python `url.split("=")` lifted to `String`. -/
def pySplitEq (s : String) : List String :=
  (splitOnEqCh s.data).map (fun l => String.mk l)

/-- The source's identifier extraction `youtube_video_url.split("=")[1]`
(`app5.py` lines 29 and 111, `app.py` lines 26 and 62): `none` models the
`IndexError` raised when index 1 does not exist. -/
def extractVideoId (url : String) : Option String :=
  (pySplitEq url).get? 1

/-- Modelled from the spec (section 6): "identifier extraction =
substring after the first `=`". Stated only to compare the spec's two
formulations; the source's own extraction is `extractVideoId`. -/
def afterFirstEq (url : String) : Option String :=
  match pySplitEq url with
  | _ :: rest@(_ :: _) => some (pyJoinEq rest)
  | _ => none

/-- The transcript text: `" ".join([entry["text"] for entry in transcript])`
(`app5.py` line 31, `app.py` line 30). -/
def joinSegments (segs : List Segment) : String :=
  pyJoinSpace (segs.map Segment.text)

/-- The fixed instruction prompt of `app5.py` (lines 22-24). -/
def prompt : String :=
  "You are a YouTube video summarizer. You will take the transcript text\nand summarize the entire video, providing the important summary in points\nwithin 250 words. Please provide the summary of the text given here: "

/-- Observable outcome of `extract_transcript_details` in `app5.py`:
either the returned transcript text, or which user-facing condition was
reported before returning `None`. -/
inductive TranscriptOutcome where
  | text : String → TranscriptOutcome
  | warnNoTranscript : TranscriptOutcome
  | warnDisabled : TranscriptOutcome
  | errUnexpected : String → TranscriptOutcome
deriving DecidableEq, Repr

/-- `extract_transcript_details` of `app5.py` (lines 27-47). The
transcript source is the parameter `get : video_id → restricted? → result`
(`restricted? = true` models `languages=['en']`). A failed index in the
split is the `IndexError` caught by the outer generic `except Exception`;
a `NoTranscriptFound` on the restricted call triggers the unrestricted
retry, whose failure of any kind is caught by the inner
`except Exception` and reported as "no transcript in any language". -/
def extract_transcript_details (get : String → Bool → FetchResult)
    (youtube_video_url : String) : TranscriptOutcome :=
  match extractVideoId youtube_video_url with
  | none => .errUnexpected "list index out of range"
  | some video_id =>
    match get video_id true with
    | .ok segs => .text (joinSegments segs)
    | .noTranscriptFound =>
      match get video_id false with
      | .ok segs => .text (joinSegments segs)
      | _ => .warnNoTranscript
    | .transcriptsDisabled => .warnDisabled
    | .videoUnavailable => .errUnexpected "VideoUnavailable"
    | .otherError e => .errUnexpected e

/-- The payload handed to the summarization collaborator:
`prompt + transcript_text` (`app5.py` line 52). -/
def geminiPayload (transcript_text p : String) : String :=
  p ++ transcript_text

/-- `generate_gemini_content` of `app5.py` (lines 50-53): a single
request whose payload is the prompt concatenated with the transcript. -/
def generate_gemini_content (model : String → String)
    (transcript_text p : String) : String :=
  model (geminiPayload transcript_text p)

/-- One token produced by the spaCy pipeline, with the two per-token
flags the source reads (`token.is_alpha`, `token.is_stop`). -/
structure Token where
  text : String
  is_alpha : Bool
  is_stop : Bool
deriving DecidableEq, Repr

/-- `extract_keywords` of `app5.py` (lines 56-59): filter the document's
tokens by `is_alpha and not is_stop`, take their texts, de-duplicate
(`list(set(keywords))` — CPython set iteration order is unspecified;
`List.dedup` is one concrete order, and only order-independent
properties are proved about the result), then truncate to
`num_keywords`. -/
def extract_keywords (nlp : String → List Token) (text : String)
    (num_keywords : Nat := 10) : List String :=
  let doc := nlp text
  let keywords := (doc.filter (fun t => t.is_alpha && !t.is_stop)).map Token.text
  keywords.dedup.take num_keywords

/-- `analyze_sentiment` of `app5.py` (lines 62-67). The TextBlob
collaborator is the parameter `blob : text → (polarity, subjectivity)`;
scores are modelled as rationals. -/
def analyze_sentiment (blob : String → ℚ × ℚ) (text : String) :
    String × ℚ × ℚ :=
  let polarity := (blob text).1
  let subjectivity := (blob text).2
  let sentiment :=
    if polarity > 0 then "Positive"
    else if polarity < 0 then "Negative"
    else "Neutral"
  (sentiment, polarity, subjectivity)

/-- The label component of `analyze_sentiment`. -/
def labelOf (blob : String → ℚ × ℚ) (text : String) : String :=
  (analyze_sentiment blob text).1

/-- The `statistics` part of a platform video item; each count may be
absent from the upstream response (the Python code reads them with
`stats.get(key, 0)` then `int(...)`; counts are modelled as `Option Nat`
with the string-to-int conversion elided). -/
structure Statistics where
  viewCount : Option Nat
  likeCount : Option Nat
  dislikeCount : Option Nat
  commentCount : Option Nat
deriving DecidableEq, Repr

/-- The `snippet` part of a platform video item (only the fields the
source reads). -/
structure Snippet where
  title : String
  channelTitle : String
  channelId : String
deriving DecidableEq, Repr

/-- One item of the platform `videos().list` response. -/
structure VideoItem where
  snippet : Snippet
  statistics : Statistics
deriving DecidableEq, Repr

/-- The platform `videos().list(part="snippet,statistics")` response. -/
structure VideosListResponse where
  items : List VideoItem
deriving DecidableEq, Repr

/-- The flat metadata record returned by `get_video_details`. -/
structure VideoDetails where
  title : String
  channel_title : String
  views : Nat
  likes : Nat
  dislikes : Nat
  comments : Nat
  channel_id : String
deriving DecidableEq, Repr

/-- `get_video_details` of `app5.py` (lines 70-89). The platform API is
the parameter `api`; `Except.error` models an exception from
`request.execute()`, which this function does not catch and so
propagates. Empty `items` returns `None`; absent counts default to 0
via `stats.get(key, 0)`. -/
def get_video_details (api : String → Except String VideosListResponse)
    (video_id : String) : Except String (Option VideoDetails) :=
  match api video_id with
  | .error e => .error e
  | .ok response =>
    match response.items with
    | [] => .ok none
    | details :: _ =>
      let stats := details.statistics
      let snippet := details.snippet
      .ok (some
        { title := snippet.title
          channel_title := snippet.channelTitle
          views := stats.viewCount.getD 0
          likes := stats.likeCount.getD 0
          dislikes := stats.dislikeCount.getD 0
          comments := stats.commentCount.getD 0
          channel_id := snippet.channelId })

/-- The three sentiment buckets of `app5.py` line 93, each holding the
raw comment strings classified into it, in append order. -/
structure SentimentBuckets where
  positive : List String
  negative : List String
  neutral : List String
deriving DecidableEq, Repr

/-- One iteration of the loop in `get_video_comments_with_sentiments`
(`app5.py` lines 98-101): classify the comment and append it to the
bucket keyed by the label; a label other than the three dict keys would
be an uncaught `KeyError` (modelled as `Except.error`). -/
def bucketStep (blob : String → ℚ × ℚ)
    (acc : Except String SentimentBuckets) (comment : String) :
    Except String SentimentBuckets :=
  match acc with
  | .error e => .error e
  | .ok b =>
    let s := labelOf blob comment
    if s = "Positive" then .ok { b with positive := b.positive ++ [comment] }
    else if s = "Negative" then .ok { b with negative := b.negative ++ [comment] }
    else if s = "Neutral" then .ok { b with neutral := b.neutral ++ [comment] }
    else .error "KeyError"

/-- `get_video_comments_with_sentiments` of `app5.py` (lines 92-103).
The comment-thread API is the parameter `api` (a page of at most 100
top-level comment texts, or an exception, which this function does not
catch); each fetched comment is classified and appended to its bucket. -/
def get_video_comments_with_sentiments
    (api : String → Except String (List String))
    (blob : String → ℚ × ℚ) (video_id : String) :
    Except String SentimentBuckets :=
  match api video_id with
  | .error e => .error e
  | .ok comments => comments.foldl (bucketStep blob) (.ok ⟨[], [], []⟩)

/-- Observable outcome of a thumbnail-display block: the thumbnail shown
for an id, the "Invalid YouTube link" error message, or an uncaught
`IndexError` escaping the block. -/
inductive ThumbOutcome where
  | shown : String → ThumbOutcome
  | invalidLink : ThumbOutcome
  | uncaughtIndexError : ThumbOutcome
deriving DecidableEq, Repr

/-- The thumbnail block of `app.py` (lines 60-65): the split is inside
`try ... except IndexError`, which shows "Invalid YouTube link". `none`
models an empty (falsy) input, where the block does not run. -/
def app_thumb (youtube_link : String) : Option ThumbOutcome :=
  if youtube_link = "" then none
  else some (match extractVideoId youtube_link with
    | some video_id => .shown video_id
    | none => .invalidLink)

/-- The thumbnail block of `app5.py` (lines 110-112): the split
`youtube_link.split("=")[1]` is not guarded, so a link without `=`
raises an `IndexError` that nothing catches. -/
def app5_thumb (youtube_link : String) : Option ThumbOutcome :=
  if youtube_link = "" then none
  else some (match extractVideoId youtube_link with
    | some video_id => .shown video_id
    | none => .uncaughtIndexError)

/-- The external collaborators of the `app5.py` analyze action. -/
structure Collaborators where
  transcriptGet : String → Bool → FetchResult
  gemini : String → Except String String
  nlp : String → List Token
  blob : String → ℚ × ℚ
  videosList : String → Except String VideosListResponse
  commentThreads : String → Except String (List String)

/-- One user-visible rendering event of the analyze action. -/
inductive Event where
  | transcriptWarn : TranscriptOutcome → Event
  | warnSkip : Event
  | summaryShown : String → Event
  | keywordsShown : List String → Event
  | detailsShown : VideoDetails → Event
  | sentimentCounts : Nat → Nat → Nat → Event
  | negativeComments : List String → Event
  | errorShown : String → Event
deriving DecidableEq, Repr

/-- The stages of `app5.py` lines 134-159 that follow the transcript
stage: metadata fetch, comment fetch, then rendering, all inside the one
enclosing `try`; the first exception jumps to the outer handler (line
160-161), skipping everything after it. A `None` from
`get_video_details` makes line 142 (`video_details['title']`) raise a
`TypeError`, also caught only by the outer handler. -/
def laterStages (c : Collaborators) (video_id : String)
    (evs : List Event) : List Event :=
  match get_video_details c.videosList video_id with
  | .error e => evs ++ [.errorShown e]
  | .ok video_details =>
    match get_video_comments_with_sentiments c.commentThreads c.blob video_id with
    | .error e => evs ++ [.errorShown e]
    | .ok buckets =>
      match video_details with
      | none => evs ++ [.errorShown "TypeError"]
      | some d =>
        evs ++ [.detailsShown d,
          .sentimentCounts buckets.positive.length buckets.negative.length
            buckets.neutral.length,
          .negativeComments buckets.negative]

/-- The analyze-button action of `app5.py` (lines 114-161). The
transcript stage reports its own failures internally (so it never
raises). Line 119's falsy test `if not transcript_text:` is true both
for `None` (the reported-failure outcomes) and for the empty string
(a successful fetch of zero segments): either way the skip warning is
shown, the summarizer is never called, and execution continues with the
platform stages. A raise from `generate_gemini_content` (which has no
`try` in `app5.py`) or from either platform fetch is caught only by the
single outer handler and aborts all later stages of the action.
`video_id` is the module-level value computed on line 111 from the same
link. -/
def analyzeClick (c : Collaborators) (youtube_link video_id : String) :
    List Event :=
  match extract_transcript_details c.transcriptGet youtube_link with
  | .text t =>
    if t = "" then laterStages c video_id [.warnSkip]
    else
      match c.gemini (geminiPayload t prompt) with
      | .error e => [.errorShown e]
      | .ok summary =>
        laterStages c video_id
          [.summaryShown summary, .keywordsShown (extract_keywords c.nlp t 10)]
  | out => laterStages c video_id [.transcriptWarn out, .warnSkip]

/-! Concrete collaborator instances used to exercise the theorems. -/

/-- A transcript source with no English transcript but a successful
unrestricted (auto-generated) retrieval. -/
def getA : String → Bool → FetchResult :=
  fun _ restricted =>
    if restricted then .noTranscriptFound else .ok [⟨"hi"⟩, ⟨"there"⟩]

/-- A transcript source failing both restricted and unrestricted. -/
def getB : String → Bool → FetchResult := fun _ _ => .noTranscriptFound

/-- A transcript source reporting captions disabled. -/
def getC : String → Bool → FetchResult := fun _ _ => .transcriptsDisabled

/-- A spaCy pipeline producing a duplicated token followed by a fresh
one, to exercise de-duplication before truncation. -/
def dupTokens : String → List Token :=
  fun _ => [⟨"a", true, false⟩, ⟨"a", true, false⟩, ⟨"b", true, false⟩]

/-- A TextBlob collaborator with positive polarity. -/
def posBlob : String → ℚ × ℚ := fun _ => (1, 1)

/-- A TextBlob collaborator with zero polarity. -/
def zeroBlob : String → ℚ × ℚ := fun _ => (0, 0)

/-- A platform API returning zero matching items. -/
def apiEmpty : String → Except String VideosListResponse := fun _ => .ok ⟨[]⟩

/-- A platform API returning one item with every statistic absent. -/
def apiNoStats : String → Except String VideosListResponse :=
  fun _ => .ok ⟨[⟨⟨"T", "C", "cid"⟩, ⟨none, none, none, none⟩⟩]⟩

/-- A comment API returning a single page with one comment. -/
def oneCommentApi : String → Except String (List String) :=
  fun _ => .ok ["good"]

/-- Collaborators whose metadata fetch raises while every other
collaborator succeeds. -/
def cMetaFail : Collaborators :=
  { transcriptGet := fun _ _ => .ok [⟨"hi"⟩]
    gemini := fun _ => .ok "SUMMARY"
    nlp := fun _ => []
    blob := fun _ => (1, 0)
    videosList := fun _ => .error "metadata boom"
    commentThreads := fun _ => .ok ["nice"] }

/-- Collaborators whose transcript source reports captions disabled
while both platform fetches succeed. -/
def cDisabled : Collaborators :=
  { transcriptGet := fun _ _ => .transcriptsDisabled
    gemini := fun _ => .ok "SUMMARY"
    nlp := fun _ => []
    blob := fun _ => (1, 0)
    videosList := fun _ => .ok ⟨[⟨⟨"T", "C", "cid"⟩, ⟨some 5, some 2, none, some 1⟩⟩]⟩
    commentThreads := fun _ => .ok ["nice"] }

/-- Collaborators identical to `cMetaFail` except that the transcript
source succeeds with zero segments, so the joined transcript is the
falsy empty string. -/
def cEmptyTranscript : Collaborators :=
  { cMetaFail with transcriptGet := fun _ _ => .ok [] }

/-- Collaborators identical to `cMetaFail` except that the metadata
fetch succeeds. -/
def cAllOk : Collaborators :=
  { cMetaFail with
    videosList := fun _ => .ok ⟨[⟨⟨"T", "C", "cid"⟩, ⟨some 5, some 2, none, some 1⟩⟩]⟩ }

/-! Theorems. -/

/-- Auxiliary: `splitOnEqCh` produces one more group than there are
`'='` characters, so it is never empty. -/
theorem splitOnEqCh_length (l : List Char) :
    (splitOnEqCh l).length = l.count '=' + 1 := by
  induction l with
  | nil => rfl
  | cons c cs ih =>
    by_cases hc : c = '='
    · simp [splitOnEqCh, hc, List.count_cons, ih]
    · cases hr : splitOnEqCh cs with
      | nil => rw [hr] at ih; simp at ih
      | cons g gs =>
        rw [hr] at ih
        simpa [splitOnEqCh, hc, hr, List.count_cons] using ih

/-- C2: the payload sent to the summarization collaborator is the fixed
instruction prompt concatenated with the transcript text verbatim; in
particular segments "hello", "world" with prompt "Summarize: " give the
payload "Summarize: hello world". -/
theorem C2_summarizer_payload (model : String → String)
    (segs : List Segment) (p : String) :
    generate_gemini_content model (joinSegments segs) p
        = model (p ++ joinSegments segs) ∧
    geminiPayload (joinSegments [⟨"hello"⟩, ⟨"world"⟩]) "Summarize: "
        = "Summarize: hello world" :=
  ⟨rfl, by decide⟩

/-- C3: the transcript text joins the segments' `text` fields in their
original order with a single space between consecutive segments; the
empty segment list yields the empty string, and ["a","b","c"] yields
"a b c". -/
theorem C3_transcript_join (s : Segment) (rest : List Segment)
    (h : rest ≠ []) :
    joinSegments [] = "" ∧
    joinSegments (s :: rest) = s.text ++ " " ++ joinSegments rest ∧
    joinSegments [⟨"a"⟩, ⟨"b"⟩, ⟨"c"⟩] = "a b c" := by
  refine ⟨rfl, ?_, by decide⟩
  cases rest with
  | nil => exact absurd rfl h
  | cons r rs => rfl

/-- Witness for C3 at a concrete nonempty tail. -/
theorem C3_transcript_join_witness :
    joinSegments [Segment.mk "a", ⟨"b"⟩] = "a" ++ " " ++ joinSegments [⟨"b"⟩] :=
  (C3_transcript_join ⟨"a"⟩ [⟨"b"⟩] (by decide)).2.1

/-- C4 counterexample: on the URL "a=b=c", which contains two `=`, the
code's extraction (second segment of the `=`-split) yields "b" while the
spec's other formulation (substring after the first `=`) yields "b=c",
so the two formulations do not agree on every input with at least
one `=`. -/
theorem C4_counterexample :
    extractVideoId "a=b=c" = some "b" ∧
    afterFirstEq "a=b=c" = some "b=c" ∧
    extractVideoId "a=b=c" ≠ afterFirstEq "a=b=c" := by
  refine ⟨by decide, ?_, ?_⟩ <;> decide

/-- C4 (amended): for every URL containing at least one `=`, extraction
succeeds and returns the second segment of the `=`-split; the
"substring after the first `=`" formulation agrees with it whenever the
URL contains exactly one `=` (split length 2), but not in general. -/
theorem C4_second_segment (url : String) (h : '=' ∈ url.data) :
    (∃ id, extractVideoId url = some id) ∧
    ((pySplitEq url).length = 2 → extractVideoId url = afterFirstEq url) := by
  constructor
  · have hcount : 0 < url.data.count '=' := List.count_pos_iff.mpr h
    have hlen : 1 < (pySplitEq url).length := by
      unfold pySplitEq
      rw [List.length_map, splitOnEqCh_length]
      omega
    exact ⟨(pySplitEq url).get ⟨1, hlen⟩, List.get?_eq_get hlen⟩
  · intro h2
    match hsplit : pySplitEq url with
    | [a, b] =>
      simp [extractVideoId, afterFirstEq, hsplit, pyJoinEq]
    | [] | [_] => rw [hsplit] at h2; simp at h2
    | _ :: _ :: _ :: _ => rw [hsplit] at h2; simp at h2

/-- Witness for C4's amended theorem at a concrete one-`=` URL. -/
theorem C4_second_segment_witness :
    ('=' ∈ ("https://www.youtube.com/watch?v=abc").data) ∧
    (∃ id, extractVideoId "https://www.youtube.com/watch?v=abc" = some id) ∧
    extractVideoId "https://www.youtube.com/watch?v=abc"
      = afterFirstEq "https://www.youtube.com/watch?v=abc" := by
  have h := C4_second_segment "https://www.youtube.com/watch?v=abc" (by decide)
  exact ⟨by decide, h.1, h.2 (by decide)⟩

/-- C5: on a URL with no `=` ("abc"), the thumbnail block of `app5.py`
line 111 lets the `IndexError` escape uncaught, while `app.py` lines
60-65 catch it and show the distinct "Invalid YouTube link" message;
inside `extract_transcript_details` the same `IndexError` is swallowed
by the generic handler as an unexpected error, not a distinct
invalid-link condition. -/
theorem C5_no_eq_url (get : String → Bool → FetchResult) :
    app5_thumb "abc" = some .uncaughtIndexError ∧
    app_thumb "abc" = some .invalidLink ∧
    extract_transcript_details get "abc"
      = .errUnexpected "list index out of range" := by
  refine ⟨by decide, by decide, ?_⟩
  have h : extractVideoId "abc" = none := by decide
  simp [extract_transcript_details, h]

/-- C1: the transcript fallback policy of `app5.py`. When the
restricted (English) retrieval reports no-transcript-found but the
unrestricted retrieval succeeds, the joined unrestricted text is
returned as a success; when the unrestricted retrieval also fails (with
any failure), the reported condition is the "no transcript available in
any language" warning with no text; and that condition is distinct from
the "subtitles are disabled" condition reported when the restricted
retrieval raises `TranscriptsDisabled`. -/
theorem C1_transcript_fallback (get : String → Bool → FetchResult)
    (url id : String) (hid : extractVideoId url = some id) :
    (∀ segs, get id true = .noTranscriptFound → get id false = .ok segs →
      extract_transcript_details get url = .text (joinSegments segs)) ∧
    (get id true = .noTranscriptFound → (get id false).isOk = false →
      extract_transcript_details get url = .warnNoTranscript) ∧
    (get id true = .transcriptsDisabled →
      extract_transcript_details get url = .warnDisabled) ∧
    TranscriptOutcome.warnNoTranscript ≠ TranscriptOutcome.warnDisabled := by
  refine ⟨?_, ?_, ?_, by decide⟩
  · intro segs h1 h2
    simp [extract_transcript_details, hid, h1, h2]
  · intro h1 h2
    simp only [extract_transcript_details, hid, h1]
    cases h3 : get id false <;> simp [h3, FetchResult.isOk] at h2 ⊢
  · intro h1
    simp [extract_transcript_details, hid, h1]

/-- Witness for C1 across its three branches, at the URL
"watch?v=abc": fallback success, double failure, and disabled. -/
theorem C1_transcript_fallback_witness :
    extract_transcript_details getA "watch?v=abc" = .text "hi there" ∧
    extract_transcript_details getB "watch?v=abc" = .warnNoTranscript ∧
    extract_transcript_details getC "watch?v=abc" = .warnDisabled := by
  refine ⟨?_, ?_, ?_⟩
  · have h := (C1_transcript_fallback getA "watch?v=abc" "abc" (by decide)).1
      [⟨"hi"⟩, ⟨"there"⟩] rfl rfl
    rw [show joinSegments [⟨"hi"⟩, ⟨"there"⟩] = "hi there" from by decide] at h
    exact h
  · exact (C1_transcript_fallback getB "watch?v=abc" "abc" (by decide)).2.1 rfl rfl
  · exact (C1_transcript_fallback getC "watch?v=abc" "abc" (by decide)).2.2.1 rfl

/-- C6: the sentiment label is determined solely by the polarity score
(positive, negative, or zero — with no threshold band and no dependence
on subjectivity, witnessed by any second collaborator agreeing on the
polarity alone), and the returned polarity and subjectivity are the
collaborator's scores unchanged, hence within the documented ranges
whenever the collaborator respects them. -/
theorem C6_sentiment_classification (blob blob2 : String → ℚ × ℚ)
    (text : String)
    (hp1 : -1 ≤ (blob text).1) (hp2 : (blob text).1 ≤ 1)
    (hs1 : 0 ≤ (blob text).2) (hs2 : (blob text).2 ≤ 1) :
    (0 < (blob text).1 → labelOf blob text = "Positive") ∧
    ((blob text).1 < 0 → labelOf blob text = "Negative") ∧
    ((blob text).1 = 0 → labelOf blob text = "Neutral") ∧
    ((blob2 text).1 = (blob text).1 → labelOf blob2 text = labelOf blob text) ∧
    (analyze_sentiment blob text).2.1 = (blob text).1 ∧
    (analyze_sentiment blob text).2.2 = (blob text).2 ∧
    (-1 ≤ (analyze_sentiment blob text).2.1 ∧
      (analyze_sentiment blob text).2.1 ≤ 1) ∧
    (0 ≤ (analyze_sentiment blob text).2.2 ∧
      (analyze_sentiment blob text).2.2 ≤ 1) := by
  refine ⟨?_, ?_, ?_, ?_, rfl, rfl, ⟨hp1, hp2⟩, ⟨hs1, hs2⟩⟩
  · intro h; simp [labelOf, analyze_sentiment, h]
  · intro h; simp [labelOf, analyze_sentiment, h, not_lt_of_lt h]
  · intro h; simp [labelOf, analyze_sentiment, h]
  · intro h; simp only [labelOf, analyze_sentiment, h]

/-- Witness for C6 at a zero-polarity collaborator. -/
theorem C6_sentiment_classification_witness :
    labelOf zeroBlob "t" = "Neutral" ∧
    (analyze_sentiment zeroBlob "t").2.1 = 0 := by
  have h := C6_sentiment_classification zeroBlob posBlob "t"
    (by norm_num [zeroBlob]) (by norm_num [zeroBlob])
    (by norm_num [zeroBlob]) (by norm_num [zeroBlob])
  exact ⟨h.2.2.1 (by norm_num [zeroBlob]), h.2.2.2.2.1⟩

/-- C7: the keyword list never exceeds the requested count, contains no
duplicates, and contains only texts of tokens the NLP collaborator
flags as alphabetic non-stopwords; de-duplication happens before
truncation, so with tokens "a","a","b" and count 2 both "a" and "b"
survive. -/
theorem C7_keyword_extraction (nlp : String → List Token)
    (text : String) (n : Nat) :
    (extract_keywords nlp text n).length ≤ n ∧
    (extract_keywords nlp text n).Nodup ∧
    (∀ s ∈ extract_keywords nlp text n,
      ∃ t ∈ nlp text, t.text = s ∧ t.is_alpha = true ∧ t.is_stop = false) ∧
    extract_keywords dupTokens "x" 2 = ["a", "b"] := by
  refine ⟨?_, ?_, ?_, by decide⟩
  · simp [extract_keywords, List.length_take_le]
  · exact ((List.take_sublist _ _).nodup (List.nodup_dedup _))
  · intro s hs
    have hs' : s ∈ ((nlp text).filter
        (fun t => t.is_alpha && !t.is_stop)).map Token.text :=
      (List.dedup_subset _) ((List.take_subset _ _) hs)
    obtain ⟨t, ht, rfl⟩ := List.mem_map.mp hs'
    obtain ⟨htm, htf⟩ := List.mem_filter.mp ht
    simp only [Bool.and_eq_true, Bool.not_eq_true'] at htf
    exact ⟨t, htm, rfl, htf.1, htf.2⟩

/-- Witness for C7 at a concrete pipeline and member. -/
theorem C7_keyword_extraction_witness :
    ("a" ∈ extract_keywords dupTokens "x" 2) ∧
    (∃ t ∈ dupTokens "x",
      t.text = "a" ∧ t.is_alpha = true ∧ t.is_stop = false) :=
  ⟨by decide, (C7_keyword_extraction dupTokens "x" 2).2.2.1 "a" (by decide)⟩

/-- C8: when the platform response has zero matching items the result
is the distinct `none` ("not found"), not an exception; when an item is
present, every statistic absent from the response is populated with
exactly the zero default. -/
theorem C8_video_details (api : String → Except String VideosListResponse)
    (vid : String) (resp : VideosListResponse) (hresp : api vid = .ok resp) :
    (resp.items = [] → get_video_details api vid = .ok none) ∧
    (∀ item rest, resp.items = item :: rest →
      ∃ d, get_video_details api vid = .ok (some d) ∧
        (item.statistics.viewCount = none → d.views = 0) ∧
        (item.statistics.likeCount = none → d.likes = 0) ∧
        (item.statistics.dislikeCount = none → d.dislikes = 0) ∧
        (item.statistics.commentCount = none → d.comments = 0)) := by
  constructor
  · intro hempty
    simp [get_video_details, hresp, hempty]
  · intro item rest hitems
    refine ⟨{ title := item.snippet.title
              channel_title := item.snippet.channelTitle
              views := item.statistics.viewCount.getD 0
              likes := item.statistics.likeCount.getD 0
              dislikes := item.statistics.dislikeCount.getD 0
              comments := item.statistics.commentCount.getD 0
              channel_id := item.snippet.channelId },
      by simp [get_video_details, hresp, hitems], ?_, ?_, ?_, ?_⟩ <;>
      intro h <;> simp [h]

/-- Witness for C8: an empty-items response and an all-absent-statistics
response, both concrete. -/
theorem C8_video_details_witness :
    get_video_details apiEmpty "v" = .ok none ∧
    ∃ d, get_video_details apiNoStats "v" = .ok (some d) ∧
      (d.views = 0) ∧ (d.likes = 0) ∧ (d.dislikes = 0) ∧ (d.comments = 0) := by
  constructor
  · exact (C8_video_details apiEmpty "v" ⟨[]⟩ rfl).1 rfl
  · obtain ⟨d, hd, h1, h2, h3, h4⟩ :=
      (C8_video_details apiNoStats "v"
        ⟨[⟨⟨"T", "C", "cid"⟩, ⟨none, none, none, none⟩⟩]⟩ rfl).2
        ⟨⟨"T", "C", "cid"⟩, ⟨none, none, none, none⟩⟩ [] rfl
    exact ⟨d, hd, h1 rfl, h2 rfl, h3 rfl, h4 rfl⟩

/-- Auxiliary: the sentiment label is always one of exactly the three
bucket keys of the sentiments dictionary. -/
theorem labelOf_mem_keys (blob : String → ℚ × ℚ) (text : String) :
    labelOf blob text = "Positive" ∨ labelOf blob text = "Negative" ∨
      labelOf blob text = "Neutral" := by
  simp only [labelOf, analyze_sentiment]
  split_ifs <;> simp

/-- Auxiliary: the comment loop of `get_video_comments_with_sentiments`
appends each comment to the bucket named by its label, preserving
receipt order, and never hits the `KeyError` branch. -/
theorem bucketFold_spec (blob : String → ℚ × ℚ) (comments : List String)
    (b : SentimentBuckets) :
    comments.foldl (bucketStep blob) (.ok b) = .ok
      { positive := b.positive ++
          comments.filter (fun c => labelOf blob c = "Positive")
        negative := b.negative ++
          comments.filter (fun c => labelOf blob c = "Negative")
        neutral := b.neutral ++
          comments.filter (fun c => labelOf blob c = "Neutral") } := by
  induction comments generalizing b with
  | nil => simp
  | cons c cs ih =>
    rcases labelOf_mem_keys blob c with h | h | h
    · have hstep : List.foldl (bucketStep blob) (Except.ok b) (c :: cs)
          = List.foldl (bucketStep blob)
              (Except.ok { b with positive := b.positive ++ [c] }) cs := by
        simp [bucketStep, h]
      rw [hstep, ih]
      simp [List.filter_cons, h]
    · have hstep : List.foldl (bucketStep blob) (Except.ok b) (c :: cs)
          = List.foldl (bucketStep blob)
              (Except.ok { b with negative := b.negative ++ [c] }) cs := by
        simp [bucketStep, h]
      rw [hstep, ih]
      simp [List.filter_cons, h]
    · have hstep : List.foldl (bucketStep blob) (Except.ok b) (c :: cs)
          = List.foldl (bucketStep blob)
              (Except.ok { b with neutral := b.neutral ++ [c] }) cs := by
        simp [bucketStep, h]
      rw [hstep, ih]
      simp [List.filter_cons, h]

/-- Auxiliary: the three label filters partition the comment list, so
their sizes sum to its length. -/
theorem filter_label_length (blob : String → ℚ × ℚ)
    (comments : List String) :
    (comments.filter (fun c => labelOf blob c = "Positive")).length +
      (comments.filter (fun c => labelOf blob c = "Negative")).length +
      (comments.filter (fun c => labelOf blob c = "Neutral")).length
      = comments.length := by
  induction comments with
  | nil => rfl
  | cons c cs ih =>
    rcases labelOf_mem_keys blob c with h | h | h <;>
      simp [List.filter_cons, h] <;> omega

/-- C10: every fetched comment lands in exactly one of the three
buckets (the label is always one of exactly the three key strings, so
bucketing never fails), receipt order is preserved within each bucket
(each bucket is the order-preserving filter of the fetched list), and
the bucket sizes sum to the number of comments fetched. -/
theorem C10_comment_buckets (blob : String → ℚ × ℚ)
    (api : String → Except String (List String)) (vid : String)
    (comments : List String) (hapi : api vid = .ok comments) :
    get_video_comments_with_sentiments api blob vid = .ok
      { positive := comments.filter (fun c => labelOf blob c = "Positive")
        negative := comments.filter (fun c => labelOf blob c = "Negative")
        neutral := comments.filter (fun c => labelOf blob c = "Neutral") } ∧
    (∀ c, labelOf blob c = "Positive" ∨ labelOf blob c = "Negative" ∨
      labelOf blob c = "Neutral") ∧
    (comments.filter (fun c => labelOf blob c = "Positive")).length +
      (comments.filter (fun c => labelOf blob c = "Negative")).length +
      (comments.filter (fun c => labelOf blob c = "Neutral")).length
      = comments.length := by
  refine ⟨?_, fun c => labelOf_mem_keys blob c,
    filter_label_length blob comments⟩
  simp only [get_video_comments_with_sentiments, hapi]
  simpa using bucketFold_spec blob comments ⟨[], [], []⟩

/-- Witness for C10 at a one-comment page and a positive-polarity
collaborator. -/
theorem C10_comment_buckets_witness :
    get_video_comments_with_sentiments oneCommentApi posBlob "v"
      = .ok ⟨["good"], [], []⟩ := by
  have h := (C10_comment_buckets posBlob oneCommentApi "v" ["good"] rfl).1
  rw [h]
  exact congrArg Except.ok (by decide)

/-- C9 counterexample: with a failing metadata fetch but a succeeding
comment collaborator, the analyze action renders the already-computed
summary and keywords, then the single outer handler's inline error —
and nothing from the comment stage, although the identical collaborators
with a working metadata fetch do render the comment-sentiment results.
A metadata-stage failure therefore aborts the independent comment
stage, contradicting the claimed stage isolation. -/
theorem C9_counterexample :
    analyzeClick cMetaFail "watch?v=abc" "abc" =
      [.summaryShown "SUMMARY", .keywordsShown [],
        .errorShown "metadata boom"] ∧
    cMetaFail.commentThreads "abc" = .ok ["nice"] ∧
    analyzeClick cAllOk "watch?v=abc" "abc" =
      [.summaryShown "SUMMARY", .keywordsShown [],
        .detailsShown ⟨"T", "C", 5, 2, 0, 1, "cid"⟩,
        .sentimentCounts 1 0 0, .negativeComments []] := by
  refine ⟨by decide, rfl, by decide⟩

/-- C9 (amended): all stages after the transcript stage run inside one
enclosing handler, so a raising stage is converted to a single inline
error message but aborts every later stage of the action (here: a
metadata-fetch error suppresses the comment fetch and all platform
rendering); only the transcript stage is self-contained: an empty or
missing transcript merely shows the skip warning and the later stages
still run. -/
theorem C9_single_handler (c : Collaborators) (url vid : String) :
    (∀ t s e, extract_transcript_details c.transcriptGet url = .text t →
      t ≠ "" →
      c.gemini (geminiPayload t prompt) = .ok s →
      c.videosList vid = .error e →
      analyzeClick c url vid =
        [.summaryShown s, .keywordsShown (extract_keywords c.nlp t 10),
          .errorShown e]) ∧
    (extract_transcript_details c.transcriptGet url = .text "" →
      analyzeClick c url vid = laterStages c vid [.warnSkip]) ∧
    (extract_transcript_details c.transcriptGet url = .warnDisabled →
      analyzeClick c url vid =
        laterStages c vid [.transcriptWarn .warnDisabled, .warnSkip]) := by
  refine ⟨?_, ?_, ?_⟩
  · intro t s e ht hne hs he
    simp [analyzeClick, ht, hne, hs, laterStages, get_video_details, he]
  · intro hw
    simp [analyzeClick, hw]
  · intro hw
    simp [analyzeClick, hw]

/-- Witness for C9's amended theorem: the metadata-failure branch at
`cMetaFail`, the empty-transcript branch at `cEmptyTranscript`, and the
disabled-transcript branch at `cDisabled`. -/
theorem C9_single_handler_witness :
    analyzeClick cMetaFail "watch?v=abc" "abc" =
      [.summaryShown "SUMMARY",
        .keywordsShown (extract_keywords cMetaFail.nlp "hi" 10),
        .errorShown "metadata boom"] ∧
    analyzeClick cEmptyTranscript "watch?v=abc" "abc" =
      laterStages cEmptyTranscript "abc" [.warnSkip] ∧
    analyzeClick cDisabled "watch?v=abc" "abc" =
      laterStages cDisabled "abc" [.transcriptWarn .warnDisabled, .warnSkip] := by
  refine ⟨?_, ?_, ?_⟩
  · exact (C9_single_handler cMetaFail "watch?v=abc" "abc").1 "hi" "SUMMARY"
      "metadata boom" (by decide) (by decide) rfl rfl
  · exact (C9_single_handler cEmptyTranscript "watch?v=abc" "abc").2.1 (by decide)
  · exact (C9_single_handler cDisabled "watch?v=abc" "abc").2.2 (by decide)

end Ytube
